import Mathlib

/-!
Verification development for the nexterm connection-bridging subsystem.

The Rust sources are embedded shallowly: pure computations become Lean
functions, the per-connection event loops become explicit state-passing
functions over traces of incoming events, and fallible operations return
`Except String`.  Machine integers that cannot overflow on the modelled
inputs (sizes, counters, chunk ids) are modelled as `Nat`.

File map:
* `src/util/buffer_pool.rs`  -> `BufferManager`, `BytesMut`
* `src/sftp/handler.rs`      -> `SftpClientCommand`, `SftpServerMessage`,
                                `UploadState`, `handle_sftp_command`,
                                `dispatchText`, `dispatchBinary`, `reaperTick`
* `src/ssh/handler.rs`       -> `handle_socket` negotiation (`negotiate`),
                                `handle_exec_mode` loop (`execLoop`)
-/

namespace Nexterm

/-- A byte, as stored in Rust byte buffers (`u8`; values are < 256 on real
inputs but nothing below depends on a bound). -/
abbrev Byte := Nat

/-! ## Chunk-size constants (src/sftp/handler.rs lines 122-127) -/

def CHUNK_SIZE_SMALL : Nat := 512 * 1024

def CHUNK_SIZE_MEDIUM : Nat := 2 * 1024 * 1024

def CHUNK_SIZE_LARGE : Nat := 10 * 1024 * 1024

/-- The handler uses the large chunk size (line 127). -/
def CHUNK_SIZE : Nat := CHUNK_SIZE_LARGE

/-- Size passed to `BufferManager::new` in `main.rs` (5 * 1024 * 1024). -/
def BUFFER_POOL_BUFFER_SIZE : Nat := 5 * 1024 * 1024

/-! ## `bytes::BytesMut`, restricted to the operations the handlers use.

`data` is the initialized prefix of the allocation: its length is the
`len` of the `BytesMut`, and dereferencing (`&buffer[..]`, `as_mut`)
yields exactly this prefix.  `cap` is the capacity. -/

structure BytesMut where
  data : List Byte
  cap : Nat
deriving DecidableEq

/-- `BytesMut::zeroed(n)`: length n, capacity n, all zero. -/
def BytesMut.zeroed (n : Nat) : BytesMut :=
  { data := List.replicate n 0, cap := n }

/-- `BytesMut::len`. -/
def BytesMut.len (b : BytesMut) : Nat := b.data.length

/-- `BytesMut::clear`: sets the length to zero; capacity is untouched. -/
def BytesMut.clear (b : BytesMut) : BytesMut := { b with data := [] }

/-- `BytesMut::resize(len, value)`: truncates to `len` if shorter, else
pads with `value`; grows the capacity only when `len` exceeds it. -/
def BytesMut.resize (b : BytesMut) (len : Nat) (value : Byte) : BytesMut :=
  { data := b.data.take len ++ List.replicate (len - b.data.length) value,
    cap := max b.cap len }

/-! ## Buffer pool (src/util/buffer_pool.rs) -/

structure BufferManager where
  size : Nat
deriving DecidableEq

def BufferManager.new (size : Nat) : BufferManager := { size := size }

/-- `Manager::create`: `BytesMut::zeroed(self.size)`. -/
def BufferManager.create (m : BufferManager) : BytesMut :=
  BytesMut.zeroed m.size

/-- `Manager::recycle`: `obj.resize(self.size, 0)` (line 44). -/
def BufferManager.recycle (m : BufferManager) (obj : BytesMut) : BytesMut :=
  obj.resize m.size 0

/-! ## Remote file attributes (`russh_sftp::protocol::FileAttributes`) -/

structure FileAttributes where
  size : Option Nat
  uid : Option Nat
  user : Option String
  gid : Option Nat
  group : Option String
  permissions : Option Nat
  atime : Option Nat
  mtime : Option Nat
deriving DecidableEq

/-- `FileAttributes::is_dir`: the file-type bits of the permission word
equal `S_IFDIR` (0o040000). -/
def FileAttributes.is_dir (a : FileAttributes) : Bool :=
  (a.permissions.getD 0) &&& 0o170000 == 0o040000

/-- Attributes of a fresh regular file (as the server reports after
`create`): file-type bits `S_IFREG` (0o100000). -/
def regularFileAttributes (size : Nat) : FileAttributes :=
  { size := some size, uid := none, user := none, gid := none,
    group := none, permissions := some 0o100644, atime := none, mtime := none }

def directoryAttributes : FileAttributes :=
  { size := some 0, uid := none, user := none, gid := none,
    group := none, permissions := some 0o040755, atime := none, mtime := none }

/-! ## The remote SFTP server, modelled as the state the handler's requests
observe and mutate.  `dirEntries` is the listing the server returns for a
directory (name and attributes per entry), matching what `read_dir`
yields over the wire. -/

structure RemoteNode where
  attrs : FileAttributes
  content : List Byte
  dirEntries : List (String × FileAttributes)
deriving DecidableEq

def RemoteNode.file (attrs : FileAttributes) (content : List Byte) : RemoteNode :=
  { attrs := attrs, content := content, dirEntries := [] }

def RemoteNode.dir (entries : List (String × FileAttributes)) : RemoteNode :=
  { attrs := directoryAttributes, content := [], dirEntries := entries }

structure RemoteFs where
  nodes : List (String × RemoteNode)
deriving DecidableEq

def RemoteFs.find? (fs : RemoteFs) (path : String) : Option RemoteNode :=
  fs.nodes.lookup path

/-- Replace (or add) the node stored at `path`. -/
def RemoteFs.set (fs : RemoteFs) (path : String) (node : RemoteNode) : RemoteFs :=
  { nodes := (path, node) :: fs.nodes.filter (fun p => p.1 ≠ path) }

def RemoteFs.remove (fs : RemoteFs) (path : String) : RemoteFs :=
  { nodes := fs.nodes.filter (fun p => p.1 ≠ path) }

/-- `sftp.metadata(path)`: attributes, or an SFTP error for a missing path. -/
def RemoteFs.metadata (fs : RemoteFs) (path : String) : Except String FileAttributes :=
  match fs.find? path with
  | some n => .ok n.attrs
  | none => .error s!"no such file: {path}"

/-- `sftp.open(path)`: the byte content of the remote file. -/
def RemoteFs.openFile (fs : RemoteFs) (path : String) : Except String (List Byte) :=
  match fs.find? path with
  | some n => .ok n.content
  | none => .error s!"no such file: {path}"

/-- `sftp.create(path)`: truncating create of a regular file.  Fails when
the path names an existing directory. -/
def RemoteFs.createFile (fs : RemoteFs) (path : String) : Except String RemoteFs :=
  match fs.find? path with
  | some n => if n.attrs.is_dir then .error s!"is a directory: {path}"
              else .ok (fs.set path (RemoteNode.file (regularFileAttributes 0) []))
  | none => .ok (fs.set path (RemoteNode.file (regularFileAttributes 0) []))

/-- Append bytes through an open write handle (`file.write_all`). -/
def RemoteFs.writeAll (fs : RemoteFs) (path : String) (data : List Byte) :
    Except String RemoteFs :=
  match fs.find? path with
  | some n => .ok (fs.set path { n with content := n.content ++ data })
  | none => .error s!"write failed: {path}"

/-- Overwrite the whole content through an open write handle. -/
def RemoteFs.overwrite (fs : RemoteFs) (path : String) (data : List Byte) :
    Except String RemoteFs :=
  match fs.find? path with
  | some n => .ok (fs.set path { n with content := data })
  | none => .error s!"write failed: {path}"

def RemoteFs.removeFile (fs : RemoteFs) (path : String) : Except String RemoteFs :=
  match fs.find? path with
  | some n => if n.attrs.is_dir then .error s!"is a directory: {path}"
              else .ok (fs.remove path)
  | none => .error s!"no such file: {path}"

def RemoteFs.removeDir (fs : RemoteFs) (path : String) : Except String RemoteFs :=
  match fs.find? path with
  | some n => if n.attrs.is_dir then .ok (fs.remove path)
              else .error s!"not a directory: {path}"
  | none => .error s!"no such file: {path}"

/-- `sftp.create_dir(path)`: fails when the path already exists. -/
def RemoteFs.createDir (fs : RemoteFs) (path : String) : Except String RemoteFs :=
  match fs.find? path with
  | some _ => .error s!"already exists: {path}"
  | none => .ok (fs.set path (RemoteNode.dir []))

def RemoteFs.rename (fs : RemoteFs) (old_path new_path : String) :
    Except String RemoteFs :=
  match fs.find? old_path with
  | some n => .ok ((fs.remove old_path).set new_path n)
  | none => .error s!"no such file: {old_path}"

/-- `sftp.set_metadata(path, attrs)`. -/
def RemoteFs.setMetadata (fs : RemoteFs) (path : String) (attrs : FileAttributes) :
    Except String RemoteFs :=
  match fs.find? path with
  | some n => .ok (fs.set path { n with attrs := attrs })
  | none => .error s!"no such file: {path}"

/-- `sftp.read_dir(path)`: the server's listing for a directory. -/
def RemoteFs.readDir (fs : RemoteFs) (path : String) :
    Except String (List (String × FileAttributes)) :=
  match fs.find? path with
  | some n => if n.attrs.is_dir then .ok n.dirEntries
              else .error s!"not a directory: {path}"
  | none => .error s!"no such file: {path}"

/-- `sftp.canonicalize(path).unwrap_or_else(|_| path)`: the handler falls
back to the requested path on error; the model lets the server echo the
path, which exercises exactly that fallback shape. -/
def RemoteFs.canonicalize (_fs : RemoteFs) (path : String) : String := path

/-! ## Wire protocol types (src/sftp/handler.rs lines 29-116) -/

inductive SftpClientCommand where
  | listDir (path : String)
  | downloadFile (path : String)
  | uploadFileStart (path : String) (total_size : Nat)
  | uploadFileEnd
  | uploadFileCancel
  | deleteFile (path : String)
  | deleteDir (path : String)
  | createDir (path : String)
  | rename (old_path new_path : String)
  | getAttr (path : String)
  | uploadLocal (local_path remote_path : String)
  | readFileContent (path : String)
  | saveFileContent (path : String) (content : List Byte)
  | setPermissions (path : String) (permissions : Nat)
deriving DecidableEq

structure FileEntry where
  name : String
  is_dir : Bool
  size : Nat
  modified : Option Nat
  permissions : Option Nat
  uid : Option Nat
  gid : Option Nat
  is_content_editable : Bool
deriving DecidableEq

structure FileAttrInfo where
  size : Nat
  is_dir : Bool
  modified : Option Nat
  permissions : Option Nat
deriving DecidableEq

inductive SftpServerMessage where
  | connected
  | dirList (path : String) (entries : List FileEntry)
  | downloadStart (total_size : Nat)
  | downloadChunk (chunk_id : Nat) (size : Nat)
  | downloadEnd
  | uploadProgress (received total : Nat)
  | fileAttr (attr : FileAttrInfo)
  | success (message : String)
  | error (message : String)
  | closed
  | fileContent (path : String) (content : List Byte)
deriving DecidableEq

/-- One frame sent to the client: a JSON text frame carrying a
`SftpServerMessage`, or a raw binary frame. -/
inductive OutFrame where
  | text (m : SftpServerMessage)
  | binary (data : List Byte)
deriving DecidableEq

/-! ## `is_content_editable` (src/sftp/handler.rs lines 921-999) -/

def text_extensions : List String :=
  ["txt", "md", "json", "js", "ts", "jsx", "tsx", "html", "css", "scss",
   "py", "sh", "yml", "yaml", "xml", "rs", "go", "java", "c", "cpp",
   "sql", "env", "conf", "ini", "log", "list", "local", "dockerfile",
   "makefile", "gitignore", "prettierrc", "eslintrc", "babelrc", "toml",
   "php", "rb", "lua", "swift", "kt", "kts", "dart", "scala", "pl", "r",
   "cs", "m", "mm", "hs", "clj", "ex", "exs", "erl", "fs"]

/-- `std::path::Path::extension` on a bare file name: the portion after
the final `.`, except that a name with no `.` past its first character
has no extension (this covers both the no-dot case and the
leading-dot-only case, e.g. `.gitignore`). -/
def pathExtension (name : String) : Option String :=
  match name.data with
  | [] => none
  | _ :: rest =>
      if rest.contains '.' then
        some (String.mk ((rest.reverse.takeWhile (fun ch => ch ≠ '.')).reverse))
      else none

def is_content_editable (name : String) (size : Nat) : Bool :=
  if size > 2 * 1024 * 1024 then
    false
  else
    let name_lower := name.toLower
    if ["dockerfile", "makefile", "procfile", "caddyfile"].contains name_lower then
      true
    else
      match pathExtension name_lower with
      | some ext => text_extensions.contains ext
      | none => false

/-! ## Path helpers used by the upload arms -/

/-- `std::path::Path::parent().and_then(to_str)` on a `/`-separated path:
everything before the final separator (`none` when there is none). -/
def parentPath (p : String) : Option String :=
  let comps := p.splitOn "/"
  if comps.length ≤ 1 then none
  else some (String.intercalate "/" (comps.dropLast))

/-- `std::path::Path::file_name` on a `/`-separated path: the last
non-empty component. -/
def fileName (p : String) : Option String :=
  ((p.splitOn "/").filter (fun s => s ≠ "")).getLast?

/-- `create_dir_recursive` (src/sftp/handler.rs lines 902-918): create
each prefix directory in turn, ignoring per-step errors. -/
def create_dir_recursive (fs : RemoteFs) (path : String) : RemoteFs :=
  let parts := (path.splitOn "/").filter (fun s => s ≠ "")
  let init := if path.startsWith "/" then "/" else ""
  (parts.foldl
    (fun (acc : RemoteFs × String) part =>
      let current := acc.2 ++ part
      let fs' := match acc.1.createDir current with
                 | .ok fs' => fs'
                 | .error _ => acc.1
      (fs', current ++ "/"))
    (fs, init)).1

/-- The guarded best-effort parent creation both upload arms perform:
skip when the parent is absent, empty, or `/`. -/
def ensureParentDirs (fs : RemoteFs) (path : String) : RemoteFs :=
  match parentPath path with
  | some parent =>
      if parent ≠ "" ∧ parent ≠ "/" then create_dir_recursive fs parent else fs
  | none => fs

/-! ## Upload state (src/sftp/handler.rs lines 129-168) -/

/-- Timestamps (`std::time::Instant`) are modelled as seconds since an
arbitrary origin; `elapsed` at time `now` is `now - last_activity`. -/
structure UploadState where
  path : String
  total_size : Nat
  received : Nat
  /-- the open remote write handle, identified by the path it writes to -/
  file : Option String
  last_activity : Nat
deriving DecidableEq

def UploadState.new (path : String) (total_size : Nat) (now : Nat) : UploadState :=
  { path := path, total_size := total_size, received := 0,
    file := none, last_activity := now }

def UploadState.update_activity (s : UploadState) (now : Nat) : UploadState :=
  { s with last_activity := now }

/-- `is_timeout`: more than 300 seconds without activity. -/
def UploadState.is_timeout (s : UploadState) (now : Nat) : Bool :=
  300 < now - s.last_activity

/-! ## Read primitives

The handlers pass `buffer.as_mut()` (equivalently the deref slice) to the
async read calls.  For a `BytesMut` that slice is the initialized prefix
of length `len`, so its length is `buffer.data.length` — in particular it
is empty right after `clear()`. -/

/-- `AsyncReadExt::read` into a mutable slice: reads
`min (slice length) (bytes left)` bytes at the cursor.  Returns the byte
count, the updated slice and the new cursor. -/
def readInto (content : List Byte) (pos : Nat) (slice : List Byte) :
    Nat × List Byte × Nat :=
  let n := min slice.length (content.length - pos)
  (n, (content.drop pos).take n ++ slice.drop n, pos + n)

/-- `AsyncReadExt::read_exact` into a mutable slice: fills the whole
slice, or consumes to end-of-file and reports `UnexpectedEof` (first
component `false`). -/
def readExactInto (content : List Byte) (pos : Nat) (slice : List Byte) :
    Bool × List Byte × Nat :=
  if slice.length ≤ content.length - pos then
    (true, (content.drop pos).take slice.length ++ slice.drop slice.length,
     pos + slice.length)
  else
    let n := content.length - pos
    (false, (content.drop pos).take n ++ slice.drop n, content.length)

/-! ## Download loop (src/sftp/handler.rs lines 486-528) -/

inductive DlExit where
  | done
  /-- `buffer[..n]` with `n > buffer.len()` aborts the task -/
  | panicked
  | fuelOut
deriving DecidableEq

/-- The chunked download loop.  Arguments after the fuel: buffer, read
cursor, `remaining`, `chunk_id`.  Returns the frames sent, how the loop
ended, and the buffer. -/
def downloadLoop (content : List Byte) :
    Nat → BytesMut → Nat → Nat → Nat → List OutFrame × DlExit × BytesMut
  | 0, buffer, _, _, _ => ([], .fuelOut, buffer)
  | fuel+1, buffer, pos, remaining, chunk_id =>
    let buffer := buffer.clear
    let step : Nat × List Byte × Nat :=
      if remaining ≥ CHUNK_SIZE then
        -- try to fill the whole buffer; on early EOF read the rest
        match readExactInto content pos buffer.data with
        | (true, slice, pos') => (CHUNK_SIZE, slice, pos')
        | (false, slice, pos') => readInto content pos' slice
      else
        -- last chunk: plain read
        readInto content pos buffer.data
    let n := step.1
    let buffer := { buffer with data := step.2.1 }
    let pos := step.2.2
    if n = 0 then
      ([], .done, buffer)
    else
      let remaining' := remaining - n
      let header := OutFrame.text (.downloadChunk chunk_id n)
      if n ≤ buffer.data.length then
        let frame := OutFrame.binary (buffer.data.take n)
        let (rest, ex, buffer') := downloadLoop content fuel buffer pos remaining' (chunk_id + 1)
        (header :: frame :: rest, ex, buffer')
      else
        ([header], .panicked, buffer)

/-! ## Local-to-remote streaming loop (src/sftp/handler.rs lines 760-789) -/

deriving instance DecidableEq for Except

structure ULoopOut where
  msgs : List OutFrame
  fs : RemoteFs
  buffer : BytesMut
  received : Nat
  result : Except String Unit
deriving DecidableEq

def uploadLocalLoop (content : List Byte) (total_size : Nat) (path : String) :
    Nat → RemoteFs → BytesMut → Nat → Nat → ULoopOut
  | 0, fs, buffer, _, received => ⟨[], fs, buffer, received, .ok ()⟩
  | fuel+1, fs, buffer, pos, received =>
    let buffer := buffer.clear
    let (n, slice, pos') := readInto content pos buffer.data
    let buffer := { buffer with data := slice }
    if n = 0 then
      ⟨[], fs, buffer, received, .ok ()⟩
    else
      match fs.writeAll path (buffer.data.take n) with
      | .error e => ⟨[], fs, buffer, received, .error s!"写入远程文件失败: {e}"⟩
      | .ok fs' =>
        let received' := received + n
        let progress := OutFrame.text (.uploadProgress received' total_size)
        let rest := uploadLocalLoop content total_size path fuel fs' buffer pos' received'
        ⟨progress :: rest.msgs, rest.fs, rest.buffer, rest.received, rest.result⟩

/-! ## Command handling environment -/

/-- A node of the gateway's local filesystem (for `upload_local`). -/
structure LocalNode where
  isDir : Bool
  content : List Byte
deriving DecidableEq

structure CmdEnv where
  /-- `Instant::now()` at this step, in seconds -/
  now : Nat
  localFs : List (String × LocalNode)

inductive CmdResult where
  | ok
  | err (message : String)
  /-- the handler task aborted (out-of-bounds slice) -/
  | panicked (message : String)
deriving DecidableEq

structure CmdOutcome where
  result : CmdResult
  msgs : List OutFrame
  fs : RemoteFs
  upload : Option UploadState
  buffer : BytesMut
deriving DecidableEq

/-! ## `handle_sftp_command` (src/sftp/handler.rs lines 421-887)

Each arm mirrors the corresponding `match cmd` arm of the source.  Frames
already sent before a failure stay in `msgs`; the error itself is carried
in `result` for the dispatch boundary to report. -/

def handle_sftp_command (fs : RemoteFs) (env : CmdEnv) (cmd : SftpClientCommand)
    (upload : Option UploadState) (buffer : BytesMut) : CmdOutcome :=
  match cmd with
  | .listDir path =>
    match fs.readDir path with
    | .error e => { result := .err e, msgs := [], fs := fs, upload := upload, buffer := buffer }
    | .ok dirEntries =>
        let entries := dirEntries.map (fun e =>
          let name := e.1
          let attr := e.2
          let size := attr.size.getD 0
          { is_content_editable := is_content_editable name size,
            name := name, is_dir := attr.is_dir, size := size,
            modified := attr.mtime, permissions := attr.permissions,
            uid := attr.uid, gid := attr.gid : FileEntry })
        let absolute_path := fs.canonicalize path
        { result := .ok, msgs := [.text (.dirList absolute_path entries)],
          fs := fs, upload := upload, buffer := buffer }

  | .downloadFile path =>
    match fs.metadata path with
    | .error e => { result := .err e, msgs := [], fs := fs, upload := upload, buffer := buffer }
    | .ok attr =>
      let total_size := attr.size.getD 0
      let startMsg := OutFrame.text (.downloadStart total_size)
      match fs.openFile path with
      | .error e =>
          { result := .err e, msgs := [startMsg], fs := fs, upload := upload, buffer := buffer }
      | .ok content =>
        let (loopMsgs, ex, buffer') :=
          downloadLoop content (total_size + content.length + 1) buffer 0 total_size 0
        match ex with
        | .done =>
            { result := .ok, msgs := startMsg :: loopMsgs ++ [.text .downloadEnd],
              fs := fs, upload := upload, buffer := buffer' }
        | _ =>
            { result := .panicked "range end index out of bounds",
              msgs := startMsg :: loopMsgs, fs := fs, upload := upload, buffer := buffer' }

  | .uploadFileStart path total_size =>
    -- conflict check (lines 541-544)
    if upload.isSome then
      { result := .err "已有活动的上传会话,请先完成或取消当前上传",
        msgs := [], fs := fs, upload := upload, buffer := buffer }
    else
      let final_path := path
      -- the metadata probe at lines 551-558 takes no action in any case
      let fs1 := ensureParentDirs fs final_path
      match fs1.createFile final_path with
      | .error e =>
          { result := .err e, msgs := [], fs := fs1, upload := upload, buffer := buffer }
      | .ok fs2 =>
        let st := { UploadState.new path total_size env.now with file := some final_path }
        { result := .ok, msgs := [.text (.success "准备接收文件")],
          fs := fs2, upload := some st, buffer := buffer }

  | .uploadFileEnd =>
    match upload with
    | none =>
        { result := .err "没有活动的上传会话", msgs := [],
          fs := fs, upload := none, buffer := buffer }
    | some _ =>
        -- sync_all on the open handle, then the state is dropped
        { result := .ok, msgs := [.text (.success "文件上传成功")],
          fs := fs, upload := none, buffer := buffer }

  | .uploadFileCancel =>
      { result := .ok, msgs := [.text (.success "上传已取消")],
        fs := fs, upload := none, buffer := buffer }

  | .deleteFile path =>
    match fs.removeFile path with
    | .error e => { result := .err e, msgs := [], fs := fs, upload := upload, buffer := buffer }
    | .ok fs' =>
        { result := .ok, msgs := [.text (.success "文件删除成功")],
          fs := fs', upload := upload, buffer := buffer }

  | .deleteDir path =>
    match fs.removeDir path with
    | .error e => { result := .err e, msgs := [], fs := fs, upload := upload, buffer := buffer }
    | .ok fs' =>
        { result := .ok, msgs := [.text (.success "目录删除成功")],
          fs := fs', upload := upload, buffer := buffer }

  | .createDir path =>
    match fs.createDir path with
    | .error e => { result := .err e, msgs := [], fs := fs, upload := upload, buffer := buffer }
    | .ok fs' =>
        { result := .ok, msgs := [.text (.success "目录创建成功")],
          fs := fs', upload := upload, buffer := buffer }

  | .rename old_path new_path =>
    match fs.rename old_path new_path with
    | .error e => { result := .err e, msgs := [], fs := fs, upload := upload, buffer := buffer }
    | .ok fs' =>
        { result := .ok, msgs := [.text (.success "重命名成功")],
          fs := fs', upload := upload, buffer := buffer }

  | .getAttr path =>
    match fs.metadata path with
    | .error e => { result := .err e, msgs := [], fs := fs, upload := upload, buffer := buffer }
    | .ok attr =>
        { result := .ok,
          msgs := [.text (.fileAttr
            { size := attr.size.getD 0, is_dir := attr.is_dir,
              modified := attr.mtime, permissions := attr.permissions })],
          fs := fs, upload := upload, buffer := buffer }

  | .uploadLocal local_path remote_path =>
    match env.localFs.lookup local_path with
    | none =>
        { result := .err s!"无法访问本地路径: {local_path}",
          msgs := [], fs := fs, upload := upload, buffer := buffer }
    | some lnode =>
      if lnode.isDir then
        { result := .err "目前不支持目录上传,请指定具体文件",
          msgs := [], fs := fs, upload := upload, buffer := buffer }
      else
        let isRemoteDir := match fs.metadata remote_path with
                           | .ok m => m.is_dir
                           | .error _ => false
        let finalPath? : Except String String :=
          if isRemoteDir then
            match fileName local_path with
            | some nm =>
                .ok ((remote_path.dropRightWhile (fun c => c = '/')) ++ "/" ++ nm)
            | none => .error "无法获取本地文件名"
          else .ok remote_path
        match finalPath? with
        | .error e => { result := .err e, msgs := [], fs := fs, upload := upload, buffer := buffer }
        | .ok final_remote_path =>
          let total_size := lnode.content.length
          let fs1 := ensureParentDirs fs final_remote_path
          match fs1.createFile final_remote_path with
          | .error e =>
              { result := .err s!"创建远程文件失败: {e} (目标: {final_remote_path})",
                msgs := [], fs := fs1, upload := upload, buffer := buffer }
          | .ok fs2 =>
            let r := uploadLocalLoop lnode.content total_size final_remote_path
                       (lnode.content.length + 1) fs2 buffer 0 0
            match r.result with
            | .error e =>
                { result := .err e, msgs := r.msgs, fs := r.fs,
                  upload := upload, buffer := r.buffer }
            | .ok _ =>
                -- sync_all, then the success frame
                { result := .ok, msgs := r.msgs ++ [.text (.success "文件上传成功")],
                  fs := r.fs, upload := upload, buffer := r.buffer }

  | .readFileContent path =>
    match fs.metadata path with
    | .error e => { result := .err e, msgs := [], fs := fs, upload := upload, buffer := buffer }
    | .ok attr =>
      let size := attr.size.getD 0
      if size > 2 * 1024 * 1024 then
        { result := .err s!"文件过大 ({size} bytes), 超过 2MB 限制",
          msgs := [], fs := fs, upload := upload, buffer := buffer }
      else
        match fs.openFile path with
        | .error e => { result := .err e, msgs := [], fs := fs, upload := upload, buffer := buffer }
        | .ok content =>
            -- read_to_string reads the whole file (UTF-8 decoding is
            -- modelled as the identity on the byte content)
            { result := .ok, msgs := [.text (.fileContent path content)],
              fs := fs, upload := upload, buffer := buffer }

  | .saveFileContent path content =>
    match fs.createFile path with
    | .error e => { result := .err e, msgs := [], fs := fs, upload := upload, buffer := buffer }
    | .ok fs1 =>
      match fs1.overwrite path content with
      | .error e => { result := .err e, msgs := [], fs := fs1, upload := upload, buffer := buffer }
      | .ok fs2 =>
          { result := .ok, msgs := [.text (.success "文件保存成功")],
            fs := fs2, upload := upload, buffer := buffer }

  | .setPermissions path permissions =>
    match fs.metadata path with
    | .error e => { result := .err e, msgs := [], fs := fs, upload := upload, buffer := buffer }
    | .ok current_attrs =>
      let current_perms := current_attrs.permissions.getD 0
      -- keep the file-type bits (0o170000), rewrite only the low 9 bits
      let new_perms := (current_perms &&& 0o170000) ||| (permissions &&& 0o777)
      let attrs : FileAttributes :=
        { size := current_attrs.size, uid := current_attrs.uid,
          user := current_attrs.user, gid := current_attrs.gid,
          group := current_attrs.group, permissions := some new_perms,
          atime := current_attrs.atime, mtime := current_attrs.mtime }
      match fs.setMetadata path attrs with
      | .error e => { result := .err e, msgs := [], fs := fs, upload := upload, buffer := buffer }
      | .ok fs' =>
          { result := .ok, msgs := [.text (.success s!"权限已更新为 {permissions}")],
            fs := fs', upload := upload, buffer := buffer }

/-! ## The command-loop dispatch boundary (src/sftp/handler.rs lines 313-402) -/

structure StepOutcome where
  msgs : List OutFrame
  fs : RemoteFs
  upload : Option UploadState
  buffer : BytesMut
  panicked : Bool
deriving DecidableEq

/-- One `Message::Text` iteration of the loop: `buffer.clear()` at the
top of the loop body, parse the command (`none` = unparsable, logged and
dropped), run the handler; a handler error is reported to the client as
one `error` frame and the upload state is cleared (lines 352-357). -/
def dispatchText (fs : RemoteFs) (env : CmdEnv) (upload : Option UploadState)
    (buffer : BytesMut) (cmd? : Option SftpClientCommand) : StepOutcome :=
  let buffer := buffer.clear
  match cmd? with
  | none => { msgs := [], fs := fs, upload := upload, buffer := buffer, panicked := false }
  | some cmd =>
    let o := handle_sftp_command fs env cmd upload buffer
    match o.result with
    | .ok =>
        { msgs := o.msgs, fs := o.fs, upload := o.upload, buffer := o.buffer,
          panicked := false }
    | .err e =>
        { msgs := o.msgs ++ [.text (.error e)], fs := o.fs, upload := none,
          buffer := o.buffer, panicked := false }
    | .panicked _ =>
        { msgs := o.msgs, fs := o.fs, upload := o.upload, buffer := o.buffer,
          panicked := true }

/-- One `Message::Binary` iteration (lines 362-389): append the chunk
through the open handle, advance `received`, refresh activity, send a
progress frame; with no active upload the frame is logged and dropped.
A write failure sends one error frame and clears the upload state. -/
def dispatchBinary (fs : RemoteFs) (env : CmdEnv) (upload : Option UploadState)
    (buffer : BytesMut) (data : List Byte) : StepOutcome :=
  let buffer := buffer.clear
  match upload with
  | some st =>
    match st.file with
    | some handle =>
      match fs.writeAll handle data with
      | .ok fs' =>
        let st' := { st with received := st.received + data.length,
                             last_activity := env.now }
        { msgs := [.text (.uploadProgress st'.received st'.total_size)],
          fs := fs', upload := some st', buffer := buffer, panicked := false }
      | .error e =>
        { msgs := [.text (.error s!"写入文件失败: {e}")], fs := fs,
          upload := none, buffer := buffer, panicked := false }
    | none =>
        { msgs := [], fs := fs, upload := some st, buffer := buffer, panicked := false }
  | none => { msgs := [], fs := fs, upload := none, buffer := buffer, panicked := false }

/-- One idle-reaper tick (lines 317-329): discard an upload that has seen
no activity for over 300 seconds and send one timeout error frame. -/
def reaperTick (fs : RemoteFs) (upload : Option UploadState) (buffer : BytesMut)
    (now : Nat) : StepOutcome :=
  let buffer := buffer.clear
  match upload with
  | some st =>
    if st.is_timeout now then
      { msgs := [.text (.error "上传超时,已自动取消")], fs := fs,
        upload := none, buffer := buffer, panicked := false }
    else
      { msgs := [], fs := fs, upload := some st, buffer := buffer, panicked := false }
  | none => { msgs := [], fs := fs, upload := none, buffer := buffer, panicked := false }

/-! ## SSH connection parameters (src/ssh/mod.rs) -/

inductive SshMode where
  | shell
  | exec
deriving DecidableEq

structure SshConnectParams where
  server_id : Option Int
  host : Option String
  port : Option Nat
  username : Option String
  password : Option String
  mode : SshMode
  term : String
  cols : Nat
  rows : Nat
  command : Option String
  workdir : Option String
  env : Option (List (String × String))
  shell : Option String
  timeout_secs : Nat
deriving DecidableEq

/-! ## Gateway negotiation (src/ssh/handler.rs lines 62-197 and
src/sftp/handler.rs lines 205-301)

The WebSocket recv, the host-registry lookup and the backend operations
are the negotiation's environment; each is modelled by the outcome the
handler observes. -/

/-- A received WebSocket frame (`axum` `Message` variants the handlers
distinguish). -/
inductive RecvFrame where
  | text (s : String)
  | binary (data : List Byte)
  | close
  | other
deriving DecidableEq

/-- Outcome of `socket.recv().await`: a frame, a socket error
(`Some(Err(_))`), or end of stream (`None`). -/
inductive RecvOutcome where
  | msg (f : RecvFrame)
  | recvError
  | streamEnd
deriving DecidableEq

structure ServerRecord where
  host : String
  port : Nat
  username : String
  password : Option String
deriving DecidableEq

/-- Outcome of `server_service.get_server_by_id(user_id, id)`. -/
inductive LookupResult where
  | found (s : ServerRecord)
  | notFound
  | dbError (e : String)
deriving DecidableEq

structure NegotiationEnv where
  /-- `session.get::<i64>("user_id")`: `Ok(Some(id))` or anything else -/
  userId : Option Int
  firstRecv : RecvOutcome
  /-- `serde_json::from_str::<SshConnectParams>` on the first text frame -/
  parseParams : String → Except String SshConnectParams
  lookup : Int → Int → LookupResult
  connectResult : Except String Unit
  channelResult : Except String Unit
  ptyResult : Except String Unit
  shellResult : Except String Unit

/-- A message the gateway sends during negotiation. -/
inductive NegMsg where
  | errorMsg (message : String)
  | connected
deriving DecidableEq

inductive NegOutcome where
  | aborted
  | shellStreaming (p : SshConnectParams)
  | execMode (p : SshConnectParams)
deriving DecidableEq

def NegMsg.isError : NegMsg → Bool
  | .errorMsg _ => true
  | .connected => false

/-- Fill host/port/username/password from a registry record
(lines 91-95). -/
def applyServerRecord (p : SshConnectParams) (s : ServerRecord) : SshConnectParams :=
  { p with host := some s.host, port := some s.port,
           username := some s.username, password := s.password }

/-- The `server_id` resolution step (src/ssh/handler.rs lines 87-105):
on a lookup hit the connection fields are overwritten from the record;
a miss or database error becomes the error frame the handler sends. -/
def resolveServerRecord (lookup : Int → Int → LookupResult) (uid : Int)
    (p : SshConnectParams) : Except NegMsg SshConnectParams :=
  match p.server_id with
  | some id =>
    match lookup uid id with
    | .found s => .ok (applyServerRecord p s)
    | .notFound => .error (.errorMsg "服务器不存在或无权访问")
    | .dbError e => .error (.errorMsg s!"加载服务器信息失败: {e}")
  | none => .ok p

/-- The steps from parameter validation onwards (lines 107-197): field
validation, connect/auth, channel open, then exec hand-off or
pty/env/shell negotiation ending in the `connected` notification. -/
def negotiateAfterParams (env : NegotiationEnv) (p : SshConnectParams) :
    List NegMsg × NegOutcome :=
  match p.host, p.port, p.username, p.password with
  | some _, some _, some _, some _ =>
    match env.connectResult with
    | .error e => ([.errorMsg s!"连接失败: {e}"], .aborted)
    | .ok _ =>
      match env.channelResult with
      | .error e => ([.errorMsg s!"打开通道失败: {e}"], .aborted)
      | .ok _ =>
        match p.mode with
        | .exec => ([], .execMode p)
        | .shell =>
          match env.ptyResult with
          | .error e => ([.errorMsg s!"请求pty失败: {e}"], .aborted)
          | .ok _ =>
            -- set_env results are ignored (lines 175-179)
            match env.shellResult with
            | .error e => ([.errorMsg s!"请求shell失败: {e}"], .aborted)
            | .ok _ => ([.connected], .shellStreaming p)
  | _, _, _, _ => ([.errorMsg "缺少连接所需的服务器信息"], .aborted)

/-- The `handle_socket` negotiation, up to entering the shell relay loop
or handing off to exec mode.  Mirrors the sequence of early returns in
the source; note the `_ =>` arm of the first `recv` match (lines 81-84)
logs and returns without sending anything. -/
def negotiate (env : NegotiationEnv) : List NegMsg × NegOutcome :=
  match env.userId with
  | none => ([.errorMsg "请先登录"], .aborted)
  | some uid =>
    match env.firstRecv with
    | .msg (.text json) =>
      match env.parseParams json with
      | .error e => ([.errorMsg s!"参数格式错误: {e}"], .aborted)
      | .ok p0 =>
        match resolveServerRecord env.lookup uid p0 with
        | .error m => ([m], .aborted)
        | .ok p => negotiateAfterParams env p
    | _ => ([], .aborted)

/-! The SFTP gateway negotiation (src/sftp/handler.rs lines 205-301) has
the same step structure; `connect_by_password` there already contains the
channel open, the `sftp` subsystem request and the SFTP session setup
(src/sftp/session.rs lines 18-51), each mapped into the one connect
error. -/

structure SftpNegotiationEnv where
  userId : Option Int
  firstRecv : RecvOutcome
  parseParams : String → Except String SshConnectParams
  lookup : Int → Int → LookupResult
  /-- SSH connect + channel open + subsystem request + session setup -/
  connectResult : Except String Unit

def sftpNegotiateAfterParams (env : SftpNegotiationEnv) (p : SshConnectParams) :
    List NegMsg × NegOutcome :=
  match p.host, p.port, p.username, p.password with
  | some _, some _, some _, some _ =>
    match env.connectResult with
    | .error e => ([.errorMsg s!"连接失败: {e}"], .aborted)
    | .ok _ => ([.connected], .shellStreaming p)
  | _, _, _, _ => ([.errorMsg "缺少连接所需的服务器信息"], .aborted)

def sftpNegotiate (env : SftpNegotiationEnv) : List NegMsg × NegOutcome :=
  match env.userId with
  | none => ([.errorMsg "请先登录"], .aborted)
  | some uid =>
    match env.firstRecv with
    | .msg (.text json) =>
      match env.parseParams json with
      | .error e => ([.errorMsg s!"参数错误: {e}"], .aborted)
      | .ok p0 =>
        match resolveServerRecord env.lookup uid p0 with
        | .error m => ([m], .aborted)
        | .ok p => sftpNegotiateAfterParams env p
    | _ => ([], .aborted)

/-! ## Exec mode (src/ssh/handler.rs lines 334-418)

One loop iteration = one entry of the trace: `elapsedMs` is what
`start_time.elapsed()` reads at the top-of-iteration timeout check, and
`event` is what the 100 ms-bounded `channel.wait()` then yields.  Output
chunks arrive as text (`String::from_utf8_lossy` is absorbed into the
event). -/

inductive ChannelEvent where
  | data (s : String)
  | extendedData (ext : Nat) (s : String)
  | exitStatus (code : Nat)
  | eof
  /-- `channel.wait()` returned `None` -/
  | chanClosed
  /-- the 100 ms `timeout(...)` elapsed with no message -/
  | pollTimeout
  /-- any other `ChannelMsg`, ignored by the `_ => {}` arm -/
  | otherMsg
deriving DecidableEq

structure ExecIter where
  elapsedMs : Nat
  event : ChannelEvent
deriving DecidableEq

inductive ExecExit where
  | timedOut
  | eofEnd
  | chanClosed
deriving DecidableEq

structure ExecLoopResult where
  output : String
  code : Option Nat
  exit : ExecExit
  /-- the raw text frames streamed to the client during the loop -/
  sent : List String
deriving DecidableEq

/-- The text frame sent when the wall-clock bound trips (line 367). -/
def timeoutNotice (timeout_secs : Nat) : String :=
  s!"[命令执行超时: {timeout_secs}秒]"

/-- The exec read loop (lines 363-407).  `none` means the trace ended
with the loop still running. -/
def execLoop (timeoutMs : Nat) (timeout_secs : Nat) :
    List ExecIter → String → Option Nat → List String → Option ExecLoopResult
  | [], _, _, _ => none
  | it :: rest, output, code, sent =>
    if timeoutMs ≤ it.elapsedMs then
      -- `start_time.elapsed() >= timeout_duration`: notice frame,
      -- code := Some(124), break
      some { output := output, code := some 124, exit := .timedOut,
             sent := sent ++ [timeoutNotice timeout_secs] }
    else
      match it.event with
      | .data s =>
          execLoop timeoutMs timeout_secs rest (output ++ s) code (sent ++ [s])
      | .extendedData ext s =>
          if ext = 1 then
            execLoop timeoutMs timeout_secs rest (output ++ s) code (sent ++ [s])
          else
            execLoop timeoutMs timeout_secs rest output code sent
      | .exitStatus c =>
          execLoop timeoutMs timeout_secs rest output (some c) sent
      | .eof => some { output := output, code := code, exit := .eofEnd, sent := sent }
      | .chanClosed => some { output := output, code := code, exit := .chanClosed, sent := sent }
      | .pollTimeout => execLoop timeoutMs timeout_secs rest output code sent
      | .otherMsg => execLoop timeoutMs timeout_secs rest output code sent

/-- The run of `handle_exec_mode`'s loop from its initial state. -/
def execRun (timeoutMs timeout_secs : Nat) (trace : List ExecIter) :
    Option ExecLoopResult :=
  execLoop timeoutMs timeout_secs trace "" none []

/-- The terminal `exec_complete` JSON object (lines 410-415):
`exit_code` is `code.unwrap_or(0)` and `timeout` is recomputed at
emission time as `start_time.elapsed() >= timeout_duration`. -/
structure ExecCompleteMsg where
  exit_code : Nat
  output : String
  timeout : Bool
deriving DecidableEq

def execCompleteMsg (timeoutMs finalElapsedMs : Nat) (r : ExecLoopResult) :
    ExecCompleteMsg :=
  { exit_code := r.code.getD 0, output := r.output,
    timeout := timeoutMs ≤ finalElapsedMs }

/-- What goes over the socket after the loop exits: the one completion
message, then `socket.close()` (lines 416-417). -/
inductive ExecFrame where
  | streamText (s : String)
  | completeMsg (m : ExecCompleteMsg)
  | closeFrame
deriving DecidableEq

def execEpilogue (timeoutMs finalElapsedMs : Nat) (r : ExecLoopResult) :
    List ExecFrame :=
  [.completeMsg (execCompleteMsg timeoutMs finalElapsedMs r), .closeFrame]

/-! # Theorems -/

/-! ## C3: buffer recycle -/

/-- C3 counterexample: `recycle` does not restore the buffer to length
zero.  On a pool of size 4 and a buffer whose current content is `[5]`,
`recycle` (= `obj.resize(self.size, 0)`) yields length 4, keeping the old
byte as a prefix and zero-padding — a subsequently checked-out buffer
starts at full length, not empty. -/
theorem recycle_leaves_full_length :
    ((BufferManager.new 4).recycle ⟨[5], 4⟩).data = [5, 0, 0, 0] ∧
    ((BufferManager.new 4).recycle ⟨[5], 4⟩).len = 4 ∧
    ((BufferManager.new 4).recycle ⟨[5], 4⟩).len ≠ 0 := by
  decide

/-- C3 (amended): `recycle` resizes the buffer back to the pool's
configured size — keeping up to `size` existing bytes as a prefix and
padding with zero bytes — rather than resetting the length to zero; the
capacity is never shrunk (it grows only if it was below the configured
size). -/
theorem recycle_restores_configured_size (m : BufferManager) (b : BytesMut) :
    (m.recycle b).len = m.size ∧
    (m.recycle b).data = b.data.take m.size ++ List.replicate (m.size - b.len) 0 ∧
    (m.recycle b).cap = max b.cap m.size := by
  refine ⟨?_, rfl, rfl⟩
  simp [BufferManager.recycle, BytesMut.resize, BytesMut.len]
  omega

/-! ## C7: set_permissions -/

theorem mask_keep_type_bits (a b : Nat) :
    ((a &&& 0o170000) ||| (b &&& 0o777)) &&& 0o170000 = a &&& 0o170000 := by
  apply Nat.eq_of_testBit_eq
  intro i
  simp only [Nat.testBit_land, Nat.testBit_lor]
  rcases Nat.lt_or_ge i 16 with h | h
  · interval_cases i <;> norm_num [Nat.testBit_to_div_mod]
  · have h1 : Nat.testBit 0o170000 i = false := by
      apply Nat.testBit_lt_two_pow
      calc (0o170000 : Nat) < 2 ^ 16 := by norm_num
        _ ≤ 2 ^ i := Nat.pow_le_pow_right (by norm_num) h
    simp [h1]

theorem mask_keep_low_bits (a b : Nat) :
    ((a &&& 0o170000) ||| (b &&& 0o777)) &&& 0o777 = b &&& 0o777 := by
  apply Nat.eq_of_testBit_eq
  intro i
  simp only [Nat.testBit_land, Nat.testBit_lor]
  rcases Nat.lt_or_ge i 16 with h | h
  · interval_cases i <;> norm_num [Nat.testBit_to_div_mod]
  · have h1 : Nat.testBit 0o777 i = false := by
      apply Nat.testBit_lt_two_pow
      calc (0o777 : Nat) < 2 ^ 16 := by norm_num
        _ ≤ 2 ^ i := Nat.pow_le_pow_right (by norm_num) h
    have h2 : Nat.testBit 0o170000 i = false := by
      apply Nat.testBit_lt_two_pow
      calc (0o170000 : Nat) < 2 ^ 16 := by norm_num
        _ ≤ 2 ^ i := Nat.pow_le_pow_right (by norm_num) h
    simp [h1, h2]

theorem RemoteFs.find?_set_self (fs : RemoteFs) (path : String) (n : RemoteNode) :
    (fs.set path n).find? path = some n := by
  simp [RemoteFs.find?, RemoteFs.set, List.lookup]

/-- C7: for a `set_permissions` command on an existing file the handler
succeeds, and the permission word stored back is exactly
`(old AND 0o170000) OR (requested AND 0o777)`: the file-type bits are
those of the old word and the low permission bits are those of the
request. -/
theorem set_permissions_preserves_file_type_bits
    (fs : RemoteFs) (env : CmdEnv) (upload : Option UploadState) (buffer : BytesMut)
    (path : String) (req : Nat) (node : RemoteNode)
    (h : fs.find? path = some node) :
    let o := handle_sftp_command fs env (.setPermissions path req) upload buffer
    let old := node.attrs.permissions.getD 0
    let new_perms := (old &&& 0o170000) ||| (req &&& 0o777)
    o.result = .ok ∧
    (o.fs.find? path).map (fun n => n.attrs.permissions) = some (some new_perms) ∧
    new_perms &&& 0o170000 = old &&& 0o170000 ∧
    new_perms &&& 0o777 = req &&& 0o777 := by
  refine ⟨?_, ?_, mask_keep_type_bits _ _, mask_keep_low_bits _ _⟩ <;>
    simp [handle_sftp_command, RemoteFs.metadata, RemoteFs.setMetadata, h,
          RemoteFs.find?_set_self]

def permWitnessNode : RemoteNode := RemoteNode.file (regularFileAttributes 9) [7]

def permWitnessFs : RemoteFs := { nodes := [("/etc/app.conf", permWitnessNode)] }

theorem set_permissions_preserves_file_type_bits_witness :
    let o := handle_sftp_command permWitnessFs ⟨0, []⟩
               (.setPermissions "/etc/app.conf" 0o7777) none (BytesMut.zeroed 4)
    let old := permWitnessNode.attrs.permissions.getD 0
    let new_perms := (old &&& 0o170000) ||| (0o7777 &&& 0o777)
    o.result = .ok ∧
    (o.fs.find? "/etc/app.conf").map (fun n => n.attrs.permissions) = some (some new_perms) ∧
    new_perms &&& 0o170000 = old &&& 0o170000 ∧
    new_perms &&& 0o777 = 0o7777 &&& 0o777 :=
  set_permissions_preserves_file_type_bits permWitnessFs ⟨0, []⟩ none
    (BytesMut.zeroed 4) "/etc/app.conf" 0o7777 permWitnessNode (by decide)

/-! ## C8: read_file_content size ceiling -/

/-- C8: for `read_file_content` on an existing file, a reported size over
2 MiB makes the command-loop iteration send exactly one oversize error
frame and no `file_content` frame; at or below 2 MiB the whole byte
content is sent back as one `file_content` frame. -/
theorem read_file_content_size_gate
    (fs : RemoteFs) (env : CmdEnv) (upload : Option UploadState) (buffer : BytesMut)
    (path : String) (node : RemoteNode)
    (h : fs.find? path = some node) :
    let step := dispatchText fs env upload buffer (some (.readFileContent path))
    let size := node.attrs.size.getD 0
    (size > 2 * 1024 * 1024 →
      step.msgs = [.text (.error s!"文件过大 ({size} bytes), 超过 2MB 限制")] ∧
      ∀ p c, OutFrame.text (.fileContent p c) ∉ step.msgs) ∧
    (size ≤ 2 * 1024 * 1024 →
      step.msgs = [.text (.fileContent path node.content)]) := by
  intro step size
  constructor
  · intro hBig
    have hlt : 2097152 < node.attrs.size.getD 0 := by
      simpa [size] using hBig
    constructor
    · simp only [step, dispatchText, handle_sftp_command, RemoteFs.metadata,
        RemoteFs.openFile, h]
      simp [hlt]
    · intro p c
      simp only [step, dispatchText, handle_sftp_command, RemoteFs.metadata,
        RemoteFs.openFile, h]
      simp [hlt]
  · intro hSmall
    have hlt : ¬ 2097152 < node.attrs.size.getD 0 := by
      simp only [size] at hSmall
      omega
    simp only [step, dispatchText, handle_sftp_command, RemoteFs.metadata,
      RemoteFs.openFile, h]
    simp [hlt]

def bigContentNode : RemoteNode :=
  RemoteNode.file { regularFileAttributes 0 with size := some (2 * 1024 * 1024 + 1) } [9]

def smallContentNode : RemoteNode := RemoteNode.file (regularFileAttributes 2) [10, 11]

def bigContentFs : RemoteFs := { nodes := [("/big.txt", bigContentNode)] }

def smallContentFs : RemoteFs := { nodes := [("/small.txt", smallContentNode)] }

theorem read_file_content_size_gate_witness :
    ((dispatchText bigContentFs ⟨0, []⟩ none (BytesMut.zeroed 4)
        (some (.readFileContent "/big.txt"))).msgs =
      [.text (.error s!"文件过大 ({bigContentNode.attrs.size.getD 0} bytes), 超过 2MB 限制")]) ∧
    ((dispatchText smallContentFs ⟨0, []⟩ none (BytesMut.zeroed 4)
        (some (.readFileContent "/small.txt"))).msgs =
      [.text (.fileContent "/small.txt" smallContentNode.content)]) := by
  refine ⟨?_, ?_⟩
  · exact ((read_file_content_size_gate bigContentFs ⟨0, []⟩ none (BytesMut.zeroed 4)
      "/big.txt" bigContentNode (by decide)).1 (by decide)).1
  · exact (read_file_content_size_gate smallContentFs ⟨0, []⟩ none (BytesMut.zeroed 4)
      "/small.txt" smallContentNode (by decide)).2 (by decide)

/-! ## C2 and C9: upload conflict and error-path cleanup -/

def sampleUpload : UploadState :=
  { path := "/tmp/a.bin", total_size := 100, received := 40,
    file := some "/tmp/a.bin", last_activity := 0 }

def sampleFs : RemoteFs :=
  { nodes := [("/tmp/a.bin", RemoteNode.file (regularFileAttributes 40)
      (List.replicate 40 7))] }

/-- C2 counterexample: with an active upload (40 of 100 bytes received,
open handle), an `upload_file_start` command does send the conflict
error, but the dispatch error path then discards the active
`UploadState` — it is not left unchanged and the upload cannot
continue. -/
theorem upload_conflict_discards_state :
    let step := dispatchText sampleFs ⟨10, []⟩ (some sampleUpload)
                  (BytesMut.zeroed 8) (some (.uploadFileStart "/tmp/b.bin" 10))
    step.msgs = [.text (.error "已有活动的上传会话,请先完成或取消当前上传")] ∧
    step.upload = none ∧
    step.upload ≠ some sampleUpload := by
  decide

/-- C2 (amended): starting an upload while one is active yields exactly
the conflict error frame, leaves the remote filesystem untouched, and —
through the generic error-cleanup at the dispatch boundary — discards
the active `UploadState` (dropping its open handle), so the original
upload cannot continue. -/
theorem upload_conflict_error_and_cleanup
    (fs : RemoteFs) (env : CmdEnv) (st : UploadState) (buffer : BytesMut)
    (path : String) (total : Nat) :
    let step := dispatchText fs env (some st) buffer (some (.uploadFileStart path total))
    step.msgs = [.text (.error "已有活动的上传会话,请先完成或取消当前上传")] ∧
    step.upload = none ∧
    step.fs = fs ∧
    step.panicked = false := by
  refine ⟨?_, ?_, ?_, ?_⟩ <;> simp [dispatchText, handle_sftp_command]

/-- C9: whenever `handle_sftp_command` reports an error — for any
command, including ones unrelated to uploading — the dispatch boundary
clears the session's upload state, so after any error response there is
no active upload. -/
theorem error_clears_upload_state
    (fs : RemoteFs) (env : CmdEnv) (upload : Option UploadState) (buffer : BytesMut)
    (cmd : SftpClientCommand) (e : String)
    (h : (handle_sftp_command fs env cmd upload buffer.clear).result = .err e) :
    (dispatchText fs env upload buffer (some cmd)).upload = none := by
  simp only [dispatchText]
  split <;> simp_all

theorem error_clears_upload_state_witness :
    (dispatchText { nodes := [] } ⟨0, []⟩ (some sampleUpload) (BytesMut.zeroed 4)
      (some (.rename "/x" "/y"))).upload = none :=
  error_clears_upload_state { nodes := [] } ⟨0, []⟩ (some sampleUpload)
    (BytesMut.zeroed 4) (.rename "/x" "/y") "no such file: /x" (by decide)

/-! ## C1: chunked download -/

/-- Concatenation of the binary frames of a frame list, in send order
(= chunk-id order, ids count up from 0). -/
def binaryPayload (msgs : List OutFrame) : List Byte :=
  msgs.foldr (fun f acc => match f with | .binary d => d ++ acc | _ => acc) []

def downloadSmallFs : RemoteFs :=
  { nodes := [("/data/f.bin", RemoteNode.file (regularFileAttributes 3) [1, 2, 3])] }

def downloadBigFs : RemoteFs :=
  { nodes := [("/data/big.bin",
      RemoteNode.file { regularFileAttributes 0 with size := some CHUNK_SIZE } [])] }

/-- C1 (code bug): the download loop reads through the dereferenced
`BytesMut` slice, which `buffer.clear()` has just emptied, so every read
returns 0 bytes.  For a 3-byte file the loop ends at once: the bridge
sends `download_start(3)` and `download_end` with **no** chunk frames,
and the concatenated chunk payload is `[]`, not the file content
`[1,2,3]`.  For a file whose reported size reaches `CHUNK_SIZE`,
`read_exact` on the empty slice "succeeds", the handler declares a
`CHUNK_SIZE`-byte chunk, and `buffer[..n]` panics (out-of-bounds slice),
aborting the session task after the bare chunk header. -/
theorem download_chunk_frames_lose_content :
    (let step := dispatchText downloadSmallFs ⟨0, []⟩ none
        (BytesMut.zeroed BUFFER_POOL_BUFFER_SIZE) (some (.downloadFile "/data/f.bin"))
     step.msgs = [.text (.downloadStart 3), .text .downloadEnd] ∧
     binaryPayload step.msgs = [] ∧
     binaryPayload step.msgs ≠ [1, 2, 3] ∧
     downloadSmallFs.openFile "/data/f.bin" = .ok [1, 2, 3] ∧
     step.panicked = false) ∧
    (let stepBig := dispatchText downloadBigFs ⟨0, []⟩ none
        (BytesMut.zeroed BUFFER_POOL_BUFFER_SIZE) (some (.downloadFile "/data/big.bin"))
     stepBig.panicked = true ∧
     stepBig.msgs = [.text (.downloadStart CHUNK_SIZE),
                     .text (.downloadChunk 0 CHUNK_SIZE)]) := by
  decide

/-! ## C4, C5, C10: exec mode -/

theorem execLoop_times_out (timeoutMs timeout_secs : Nat) :
    ∀ (trace : List ExecIter) (output : String) (code : Option Nat) (sent : List String),
    (∀ it ∈ trace, it.elapsedMs < timeoutMs →
        it.event ≠ .eof ∧ it.event ≠ .chanClosed) →
    (∃ it ∈ trace, timeoutMs ≤ it.elapsedMs) →
    ∃ r, execLoop timeoutMs timeout_secs trace output code sent = some r ∧
      r.exit = .timedOut ∧ r.code = some 124 := by
  intro trace
  induction trace with
  | nil => intro _ _ _ _ hReach; simp at hReach
  | cons it rest ih =>
    intro output code sent hNoEnd hReach
    by_cases hT : timeoutMs ≤ it.elapsedMs
    · exact ⟨{ output := output, code := some 124, exit := .timedOut,
               sent := sent ++ [timeoutNotice timeout_secs] },
             by simp [execLoop, hT], rfl, rfl⟩
    · have hlt : it.elapsedMs < timeoutMs := Nat.lt_of_not_le hT
      have hEv := hNoEnd it (by simp) hlt
      have hReach' : ∃ x ∈ rest, timeoutMs ≤ x.elapsedMs := by
        rcases hReach with ⟨x, hx, hxle⟩
        rcases List.mem_cons.mp hx with rfl | hx'
        · exact absurd hxle hT
        · exact ⟨x, hx', hxle⟩
      have hNoEnd' : ∀ x ∈ rest, x.elapsedMs < timeoutMs →
          x.event ≠ .eof ∧ x.event ≠ .chanClosed :=
        fun x hx => hNoEnd x (List.mem_cons_of_mem _ hx)
      cases hc : it.event with
      | data s =>
          simpa [execLoop, hT, hc] using ih (output ++ s) code (sent ++ [s]) hNoEnd' hReach'
      | extendedData ext s =>
          by_cases he : ext = 1
          · simpa [execLoop, hT, hc, he] using
              ih (output ++ s) code (sent ++ [s]) hNoEnd' hReach'
          · simpa [execLoop, hT, hc, he] using ih output code sent hNoEnd' hReach'
      | exitStatus c =>
          simpa [execLoop, hT, hc] using ih output (some c) sent hNoEnd' hReach'
      | eof => exact absurd hc hEv.1
      | chanClosed => exact absurd hc hEv.2
      | pollTimeout =>
          simpa [execLoop, hT, hc] using ih output code sent hNoEnd' hReach'
      | otherMsg =>
          simpa [execLoop, hT, hc] using ih output code sent hNoEnd' hReach'

/-- C4: when the backend produces no end-of-stream before the wall-clock
bound is reached (in particular when it never responds at all, the trace
being only poll timeouts), the loop exits through the per-iteration
elapsed-time check with code `Some(124)`, and the emitted `exec_complete`
carries `exit_code = 124` and `timeout = true`.  The check is the
comparison `elapsed >= bound` performed at the top of every iteration, so
this holds for any trace satisfying the hypotheses, whatever the backend
events are. -/
theorem exec_timeout_emits_sentinel
    (timeoutMs timeout_secs finalElapsedMs : Nat) (trace : List ExecIter)
    (hNoEnd : ∀ it ∈ trace, it.elapsedMs < timeoutMs →
        it.event ≠ .eof ∧ it.event ≠ .chanClosed)
    (hReach : ∃ it ∈ trace, timeoutMs ≤ it.elapsedMs)
    (hFinal : timeoutMs ≤ finalElapsedMs) :
    ∃ r, execRun timeoutMs timeout_secs trace = some r ∧
      r.exit = .timedOut ∧ r.code = some 124 ∧
      (execCompleteMsg timeoutMs finalElapsedMs r).exit_code = 124 ∧
      (execCompleteMsg timeoutMs finalElapsedMs r).timeout = true := by
  obtain ⟨r, hr, hexit, hcode⟩ :=
    execLoop_times_out timeoutMs timeout_secs trace "" none [] hNoEnd hReach
  exact ⟨r, hr, hexit, hcode, by simp [execCompleteMsg, hcode],
    by simp [execCompleteMsg, hFinal]⟩

/-- C4 witness: `timeoutSecs = 1` against a command that never finishes
(the channel yields only poll timeouts); the third iteration sees elapsed
1001 ms ≥ 1000 ms. -/
theorem exec_timeout_emits_sentinel_witness :
    ∃ r, execRun 1000 1 [⟨0, .pollTimeout⟩, ⟨200, .pollTimeout⟩, ⟨1001, .pollTimeout⟩] =
        some r ∧
      r.exit = .timedOut ∧ r.code = some 124 ∧
      (execCompleteMsg 1000 1001 r).exit_code = 124 ∧
      (execCompleteMsg 1000 1001 r).timeout = true :=
  exec_timeout_emits_sentinel 1000 1 1001 _ (by decide) (by decide) (by decide)

/-- C5 counterexample: an exit-status event alone does not end the exec
session.  With a 60 s bound, a trace consisting only of `ExitStatus 7`
leaves the loop still running (no completion is emitted), and a later
`data` chunk is still consumed into the output before `Eof` finally ends
the loop. -/
theorem exit_status_alone_does_not_end_loop :
    execRun 60000 60 [⟨0, .exitStatus 7⟩] = none ∧
    execRun 60000 60 [⟨0, .exitStatus 7⟩, ⟨10, .data "x"⟩, ⟨20, .eof⟩] =
      some { output := "x", code := some 7, exit := .eofEnd, sent := ["x"] } := by
  constructor <;> rfl

/-- C5 (amended): an exit-status event only records the exit code and
the loop continues; end-of-stream (`Eof` or a closed channel) and expiry
of the wall-clock bound each terminate the loop; after any exit exactly
one `exec_complete` message — carrying `code.unwrap_or(0)` (124 after a
timeout), the accumulated output, and the recomputed timeout flag — is
emitted, followed by closing the transport. -/
theorem exec_loop_terminal_behaviour (timeoutMs timeout_secs finalElapsedMs : Nat) :
    (∀ (e c : Nat) (rest : List ExecIter) (output : String) (code : Option Nat)
        (sent : List String), e < timeoutMs →
        execLoop timeoutMs timeout_secs (⟨e, .exitStatus c⟩ :: rest) output code sent =
          execLoop timeoutMs timeout_secs rest output (some c) sent) ∧
    (∀ (e : Nat) (rest : List ExecIter) (output : String) (code : Option Nat)
        (sent : List String), e < timeoutMs →
        execLoop timeoutMs timeout_secs (⟨e, .eof⟩ :: rest) output code sent =
          some { output := output, code := code, exit := .eofEnd, sent := sent }) ∧
    (∀ (e : Nat) (rest : List ExecIter) (output : String) (code : Option Nat)
        (sent : List String), e < timeoutMs →
        execLoop timeoutMs timeout_secs (⟨e, .chanClosed⟩ :: rest) output code sent =
          some { output := output, code := code, exit := .chanClosed, sent := sent }) ∧
    (∀ (e : Nat) (ev : ChannelEvent) (rest : List ExecIter) (output : String)
        (code : Option Nat) (sent : List String), timeoutMs ≤ e →
        execLoop timeoutMs timeout_secs (⟨e, ev⟩ :: rest) output code sent =
          some { output := output, code := some 124, exit := .timedOut,
                 sent := sent ++ [timeoutNotice timeout_secs] }) ∧
    (∀ r : ExecLoopResult,
        execEpilogue timeoutMs finalElapsedMs r =
          [.completeMsg { exit_code := r.code.getD 0, output := r.output,
                          timeout := decide (timeoutMs ≤ finalElapsedMs) },
           .closeFrame]) := by
  refine ⟨?_, ?_, ?_, ?_, ?_⟩
  · intro e c rest output code sent hlt
    simp [execLoop, Nat.not_le.mpr hlt]
  · intro e rest output code sent hlt
    simp [execLoop, Nat.not_le.mpr hlt]
  · intro e rest output code sent hlt
    simp [execLoop, Nat.not_le.mpr hlt]
  · intro e ev rest output code sent hle
    simp [execLoop, hle]
  · intro r
    rfl

theorem exec_loop_terminal_behaviour_witness :
    execLoop 1000 1 [⟨5, .exitStatus 9⟩] "" none [] =
        execLoop 1000 1 [] "" (some 9) [] ∧
    execLoop 1000 1 [⟨5, .eof⟩] "out" (some 9) ["out"] =
        some { output := "out", code := some 9, exit := .eofEnd, sent := ["out"] } ∧
    execLoop 1000 1 [⟨1000, .pollTimeout⟩] "" none [] =
        some { output := "", code := some 124, exit := .timedOut,
               sent := [timeoutNotice 1] } :=
  ⟨(exec_loop_terminal_behaviour 1000 1 0).1 5 9 [] "" none [] (by decide),
   (exec_loop_terminal_behaviour 1000 1 0).2.1 5 [] "out" (some 9) ["out"] (by decide),
   (exec_loop_terminal_behaviour 1000 1 0).2.2.2.1 1000 .pollTimeout [] "" none []
     (by decide)⟩

theorem execLoop_code_stable (timeoutMs timeout_secs : Nat) :
    ∀ (trace : List ExecIter) (output : String) (code : Option Nat)
      (sent : List String) (r : ExecLoopResult),
    (∀ it ∈ trace, ∀ c, it.event ≠ .exitStatus c) →
    execLoop timeoutMs timeout_secs trace output code sent = some r →
    r.exit ≠ .timedOut → r.code = code := by
  intro trace
  induction trace with
  | nil => intro _ _ _ _ _ h; simp [execLoop] at h
  | cons it rest ih =>
    intro output code sent r hNoExit hrun hk
    by_cases hT : timeoutMs ≤ it.elapsedMs
    · simp [execLoop, hT] at hrun
      rw [← hrun] at hk
      simp at hk
    · have hNoExit' : ∀ x ∈ rest, ∀ c, x.event ≠ .exitStatus c :=
        fun x hx => hNoExit x (List.mem_cons_of_mem _ hx)
      cases hc : it.event with
      | data s =>
          rw [show execLoop timeoutMs timeout_secs (it :: rest) output code sent =
              execLoop timeoutMs timeout_secs rest (output ++ s) code (sent ++ [s]) by
            simp [execLoop, hT, hc]] at hrun
          exact ih _ _ _ _ hNoExit' hrun hk
      | extendedData ext s =>
          by_cases he : ext = 1
          · rw [show execLoop timeoutMs timeout_secs (it :: rest) output code sent =
                execLoop timeoutMs timeout_secs rest (output ++ s) code (sent ++ [s]) by
              simp [execLoop, hT, hc, he]] at hrun
            exact ih _ _ _ _ hNoExit' hrun hk
          · rw [show execLoop timeoutMs timeout_secs (it :: rest) output code sent =
                execLoop timeoutMs timeout_secs rest output code sent by
              simp [execLoop, hT, hc, he]] at hrun
            exact ih _ _ _ _ hNoExit' hrun hk
      | exitStatus c => exact absurd hc (hNoExit it (by simp) c)
      | eof =>
          simp [execLoop, hT, hc] at hrun
          rw [← hrun]
      | chanClosed =>
          simp [execLoop, hT, hc] at hrun
          rw [← hrun]
      | pollTimeout =>
          rw [show execLoop timeoutMs timeout_secs (it :: rest) output code sent =
              execLoop timeoutMs timeout_secs rest output code sent by
            simp [execLoop, hT, hc]] at hrun
          exact ih _ _ _ _ hNoExit' hrun hk
      | otherMsg =>
          rw [show execLoop timeoutMs timeout_secs (it :: rest) output code sent =
              execLoop timeoutMs timeout_secs rest output code sent by
            simp [execLoop, hT, hc]] at hrun
          exact ih _ _ _ _ hNoExit' hrun hk

/-- C10: (i) if the loop exits other than through the timeout branch and
no exit-status event was ever received, the recorded code is still
`None` and `exec_complete` reports `exit_code = 0`, with the timeout flag
recomputed at emission time as `elapsed >= bound`; (ii) that flag can be
`true` even for an end-of-stream exit: a run that ends via `Eof` at
999 ms but whose completion is emitted at 1500 ms reports
`timeout = true` with `exit_code = 0`. -/
theorem exec_eof_defaults_exit_code_zero :
    (∀ (timeoutMs timeout_secs finalElapsedMs : Nat) (trace : List ExecIter)
        (r : ExecLoopResult),
        (∀ it ∈ trace, ∀ c, it.event ≠ .exitStatus c) →
        execRun timeoutMs timeout_secs trace = some r →
        r.exit ≠ .timedOut →
        r.code = none ∧
        (execCompleteMsg timeoutMs finalElapsedMs r).exit_code = 0 ∧
        (execCompleteMsg timeoutMs finalElapsedMs r).timeout =
          decide (timeoutMs ≤ finalElapsedMs)) ∧
    (execRun 1000 1 [⟨0, .data "a"⟩, ⟨999, .eof⟩] =
        some { output := "a", code := none, exit := .eofEnd, sent := ["a"] } ∧
      (execCompleteMsg 1000 1500
        { output := "a", code := none, exit := .eofEnd, sent := ["a"] }).timeout = true ∧
      (execCompleteMsg 1000 1500
        { output := "a", code := none, exit := .eofEnd, sent := ["a"] }).exit_code = 0) := by
  constructor
  · intro timeoutMs timeout_secs finalElapsedMs trace r hNoExit hrun hk
    have hcode := execLoop_code_stable timeoutMs timeout_secs trace "" none [] r
      hNoExit hrun hk
    exact ⟨hcode, by simp [execCompleteMsg, hcode], rfl⟩
  · exact ⟨rfl, rfl, rfl⟩

theorem exec_eof_defaults_exit_code_zero_witness :
    (execRun 1000 1 [⟨0, .eof⟩] =
        some { output := "", code := none, exit := .eofEnd, sent := [] }) ∧
    ({ output := "", code := none, exit := .eofEnd,
       sent := [] : ExecLoopResult }.code = none ∧
      (execCompleteMsg 1000 500
        { output := "", code := none, exit := .eofEnd, sent := [] }).exit_code = 0 ∧
      (execCompleteMsg 1000 500
        { output := "", code := none, exit := .eofEnd, sent := [] }).timeout =
        decide (1000 ≤ 500)) :=
  ⟨rfl, exec_eof_defaults_exit_code_zero.1 1000 1 500 [⟨0, .eof⟩]
      { output := "", code := none, exit := .eofEnd, sent := [] }
      (by simp) rfl (by decide)⟩

/-! ## C6: negotiation error policy -/

theorem resolveServerRecord_error_isError (lookup : Int → Int → LookupResult)
    (uid : Int) (p : SshConnectParams) (m : NegMsg)
    (h : resolveServerRecord lookup uid p = .error m) : m.isError = true := by
  cases m with
  | errorMsg s => rfl
  | connected =>
    unfold resolveServerRecord at h
    split at h
    · split at h <;> simp_all
    · simp_all

theorem negotiateAfterParams_cases (env : NegotiationEnv) (p : SshConnectParams) :
    (∃ m, negotiateAfterParams env p = ([m], .aborted) ∧ m.isError = true) ∨
    (negotiateAfterParams env p).2 ≠ .aborted := by
  unfold negotiateAfterParams
  repeat' split
  all_goals first
    | exact Or.inl ⟨_, rfl, rfl⟩
    | (right; simp)

theorem sftpNegotiateAfterParams_cases (env : SftpNegotiationEnv) (p : SshConnectParams) :
    (∃ m, sftpNegotiateAfterParams env p = ([m], .aborted) ∧ m.isError = true) ∨
    (sftpNegotiateAfterParams env p).2 ≠ .aborted := by
  unfold sftpNegotiateAfterParams
  repeat' split
  all_goals first
    | exact Or.inl ⟨_, rfl, rfl⟩
    | (right; simp)

theorem negotiate_cases (env : NegotiationEnv) :
    (∃ m, (negotiate env).1 = [m] ∧ m.isError = true ∧ (negotiate env).2 = .aborted) ∨
    ((negotiate env).1 = [] ∧ (negotiate env).2 = .aborted ∧ env.userId ≠ none ∧
      ∀ s, env.firstRecv ≠ .msg (.text s)) ∨
    (negotiate env).2 ≠ .aborted := by
  rcases hu : env.userId with _ | uid
  · exact Or.inl ⟨.errorMsg "请先登录", by simp [negotiate, hu], rfl,
      by simp [negotiate, hu]⟩
  · rcases hf : env.firstRecv with f | _ | _
    case msg =>
      rcases f with s | d | _ | _
      case text =>
        rcases hp : env.parseParams s with e | p0
        · exact Or.inl ⟨.errorMsg s!"参数格式错误: {e}",
            by simp [negotiate, hu, hf, hp], rfl, by simp [negotiate, hu, hf, hp]⟩
        · rcases hr : resolveServerRecord env.lookup uid p0 with m | p
          · exact Or.inl ⟨m, by simp [negotiate, hu, hf, hp, hr],
              resolveServerRecord_error_isError _ _ _ _ hr,
              by simp [negotiate, hu, hf, hp, hr]⟩
          · rcases negotiateAfterParams_cases env p with ⟨m, hm, hmi⟩ | hne
            · exact Or.inl ⟨m, by simp [negotiate, hu, hf, hp, hr, hm], hmi,
                by simp [negotiate, hu, hf, hp, hr, hm]⟩
            · exact Or.inr (Or.inr (by simpa [negotiate, hu, hf, hp, hr] using hne))
      case binary =>
        refine Or.inr (Or.inl ⟨by simp [negotiate, hu, hf],
          by simp [negotiate, hu, hf], by simp [hu], ?_⟩)
        intro s; simp
      case close =>
        refine Or.inr (Or.inl ⟨by simp [negotiate, hu, hf],
          by simp [negotiate, hu, hf], by simp [hu], ?_⟩)
        intro s; simp
      case other =>
        refine Or.inr (Or.inl ⟨by simp [negotiate, hu, hf],
          by simp [negotiate, hu, hf], by simp [hu], ?_⟩)
        intro s; simp
    case recvError =>
      refine Or.inr (Or.inl ⟨by simp [negotiate, hu, hf],
        by simp [negotiate, hu, hf], by simp [hu], ?_⟩)
      intro s; simp
    case streamEnd =>
      refine Or.inr (Or.inl ⟨by simp [negotiate, hu, hf],
        by simp [negotiate, hu, hf], by simp [hu], ?_⟩)
      intro s; simp

theorem sftpNegotiate_cases (env : SftpNegotiationEnv) :
    (∃ m, (sftpNegotiate env).1 = [m] ∧ m.isError = true ∧
      (sftpNegotiate env).2 = .aborted) ∨
    ((sftpNegotiate env).1 = [] ∧ (sftpNegotiate env).2 = .aborted ∧
      env.userId ≠ none ∧ ∀ s, env.firstRecv ≠ .msg (.text s)) ∨
    (sftpNegotiate env).2 ≠ .aborted := by
  rcases hu : env.userId with _ | uid
  · exact Or.inl ⟨.errorMsg "请先登录", by simp [sftpNegotiate, hu], rfl,
      by simp [sftpNegotiate, hu]⟩
  · rcases hf : env.firstRecv with f | _ | _
    case msg =>
      rcases f with s | d | _ | _
      case text =>
        rcases hp : env.parseParams s with e | p0
        · exact Or.inl ⟨.errorMsg s!"参数错误: {e}",
            by simp [sftpNegotiate, hu, hf, hp], rfl,
            by simp [sftpNegotiate, hu, hf, hp]⟩
        · rcases hr : resolveServerRecord env.lookup uid p0 with m | p
          · exact Or.inl ⟨m, by simp [sftpNegotiate, hu, hf, hp, hr],
              resolveServerRecord_error_isError _ _ _ _ hr,
              by simp [sftpNegotiate, hu, hf, hp, hr]⟩
          · rcases sftpNegotiateAfterParams_cases env p with ⟨m, hm, hmi⟩ | hne
            · exact Or.inl ⟨m, by simp [sftpNegotiate, hu, hf, hp, hr, hm], hmi,
                by simp [sftpNegotiate, hu, hf, hp, hr, hm]⟩
            · exact Or.inr (Or.inr (by simpa [sftpNegotiate, hu, hf, hp, hr] using hne))
      case binary =>
        refine Or.inr (Or.inl ⟨by simp [sftpNegotiate, hu, hf],
          by simp [sftpNegotiate, hu, hf], by simp [hu], ?_⟩)
        intro s; simp
      case close =>
        refine Or.inr (Or.inl ⟨by simp [sftpNegotiate, hu, hf],
          by simp [sftpNegotiate, hu, hf], by simp [hu], ?_⟩)
        intro s; simp
      case other =>
        refine Or.inr (Or.inl ⟨by simp [sftpNegotiate, hu, hf],
          by simp [sftpNegotiate, hu, hf], by simp [hu], ?_⟩)
        intro s; simp
    case recvError =>
      refine Or.inr (Or.inl ⟨by simp [sftpNegotiate, hu, hf],
        by simp [sftpNegotiate, hu, hf], by simp [hu], ?_⟩)
      intro s; simp
    case streamEnd =>
      refine Or.inr (Or.inl ⟨by simp [sftpNegotiate, hu, hf],
        by simp [sftpNegotiate, hu, hf], by simp [hu], ?_⟩)
      intro s; simp

/-- An environment whose authenticated client sends a binary frame as its
first message. -/
def binaryFirstEnv : NegotiationEnv :=
  { userId := some 1, firstRecv := .msg (.binary [1, 2]),
    parseParams := fun _ => .error "not json",
    lookup := fun _ _ => .notFound,
    connectResult := .ok (), channelResult := .ok (),
    ptyResult := .ok (), shellResult := .ok () }

def binaryFirstSftpEnv : SftpNegotiationEnv :=
  { userId := some 1, firstRecv := .msg (.binary [1, 2]),
    parseParams := fun _ => .error "not json",
    lookup := fun _ _ => .notFound,
    connectResult := .ok () }

/-- C6 counterexample: a first frame that is not a valid parameters
message does not always produce a parameter error.  A *binary* first
frame hits the catch-all arm of the first `recv` match in both gateways:
the session is aborted with **no** message sent to the client at all —
zero structured error messages, not exactly one. -/
theorem non_text_first_frame_aborts_silently :
    negotiate binaryFirstEnv = ([], .aborted) ∧
    ((negotiate binaryFirstEnv).1.filter (fun m => m.isError)).length = 0 ∧
    sftpNegotiate binaryFirstSftpEnv = ([], .aborted) := by
  exact ⟨rfl, rfl, rfl⟩

/-- C6 (amended): an aborted negotiation sends exactly one structured
error message to the client in every failing case — unresolved identity,
unparsable textual parameters, registry miss or error, missing fields,
connect/auth failure, channel-open failure, pty/shell or subsystem
failure — **except** when the first frame is not a text frame (or the
socket errors or closes before any frame): then the session terminates
silently, with no error message.  This holds for both the terminal and
the file-transfer gateway. -/
theorem gateway_negotiation_error_policy (env : NegotiationEnv)
    (senv : SftpNegotiationEnv)
    (h : (negotiate env).2 = .aborted)
    (h2 : (sftpNegotiate senv).2 = .aborted) :
    ((∃ m, (negotiate env).1 = [m] ∧ m.isError = true) ∨
      ((negotiate env).1 = [] ∧ env.userId ≠ none ∧
        ∀ s, env.firstRecv ≠ .msg (.text s))) ∧
    ((∃ m, (sftpNegotiate senv).1 = [m] ∧ m.isError = true) ∨
      ((sftpNegotiate senv).1 = [] ∧ senv.userId ≠ none ∧
        ∀ s, senv.firstRecv ≠ .msg (.text s))) := by
  constructor
  · rcases negotiate_cases env with ⟨m, h1, h2', _⟩ | ⟨h1, _, h3, h4⟩ | hne
    · exact Or.inl ⟨m, h1, h2'⟩
    · exact Or.inr ⟨h1, h3, h4⟩
    · exact absurd h hne
  · rcases sftpNegotiate_cases senv with ⟨m, h1, h2', _⟩ | ⟨h1, _, h3, h4⟩ | hne
    · exact Or.inl ⟨m, h1, h2'⟩
    · exact Or.inr ⟨h1, h3, h4⟩
    · exact absurd h2 hne

def authFailEnv : NegotiationEnv :=
  { userId := some 1, firstRecv := .msg (.text "{params}"),
    parseParams := fun _ => .ok
      { server_id := none, host := some "h", port := some 22,
        username := some "u", password := some "pw", mode := .shell,
        term := "xterm-256color", cols := 80, rows := 24, command := none,
        workdir := none, env := none, shell := none, timeout_secs := 60 },
    lookup := fun _ _ => .notFound,
    connectResult := .error "auth failed", channelResult := .ok (),
    ptyResult := .ok (), shellResult := .ok () }

def authFailSftpEnv : SftpNegotiationEnv :=
  { userId := some 1, firstRecv := .msg (.text "{params}"),
    parseParams := fun _ => .ok
      { server_id := none, host := some "h", port := some 22,
        username := some "u", password := some "pw", mode := .shell,
        term := "xterm-256color", cols := 80, rows := 24, command := none,
        workdir := none, env := none, shell := none, timeout_secs := 60 },
    lookup := fun _ _ => .notFound,
    connectResult := .error "auth failed" }

theorem gateway_negotiation_error_policy_witness :
    ((∃ m, (negotiate authFailEnv).1 = [m] ∧ m.isError = true) ∨
      ((negotiate authFailEnv).1 = [] ∧ authFailEnv.userId ≠ none ∧
        ∀ s, authFailEnv.firstRecv ≠ .msg (.text s))) ∧
    ((∃ m, (sftpNegotiate authFailSftpEnv).1 = [m] ∧ m.isError = true) ∨
      ((sftpNegotiate authFailSftpEnv).1 = [] ∧ authFailSftpEnv.userId ≠ none ∧
        ∀ s, authFailSftpEnv.firstRecv ≠ .msg (.text s))) :=
  gateway_negotiation_error_policy authFailEnv authFailSftpEnv rfl rfl

end Nexterm
